import Mathlib

/-!
Shallow embedding of the world-generation engine in
`src/DS_proj/src/engine/WorldManager.js` (the active class; the second half
of that file is a commented-out older revision and is not code).

Modelling conventions:
* JavaScript IEEE-754 doubles are modelled by exact rationals `ℚ`; the
  transcendental library functions `Math.sin` and `Math.sqrt` are passed in
  as explicit function parameters (`sin`, `sqrtFn`), since their bit-exact
  float behaviour is not expressible in exact arithmetic.  Theorems that
  need `sqrtFn` to behave like a square root state that as a hypothesis at
  the evaluated point.
* A JavaScript division whose denominator is `0` produces a non-finite
  value (`NaN` or `±Infinity`); we model such results as `Option ℚ` with
  `none` standing for the non-finite outcome (`jsDiv`).
* JavaScript `Map` objects keyed by the chunk-key string `"cx,cy"` are
  modelled as association lists keyed by the pair `(cx, cy) : ℤ × ℤ`
  (the key string is injective in the pair).
* 32-bit integer operations (`Math.imul`, `| 0`, `& 0x7fffffff`) are
  modelled on `ℤ` with explicit reduction modulo `2^32` / `2^31`.
* Methods are modelled by their observable return value as a function of
  the manager state; where a method also mutates state (cache insertion,
  queue bookkeeping) the new state is returned explicitly.
-/

namespace ProcWorld

/-! ## Association-list model of the JS Maps keyed by the chunk key -/

/-- `m.get(k)` on a JS Map modelled as an association list (first match). -/
def lookupKey {V : Type} : List ((ℤ × ℤ) × V) → (ℤ × ℤ) → Option V
  | [], _ => none
  | p :: rest, k => if p.1 = k then some p.2 else lookupKey rest k

/-- `m.delete(k)` on a JS Map modelled as an association list. -/
def eraseKey {V : Type} (m : List ((ℤ × ℤ) × V)) (k : ℤ × ℤ) :
    List ((ℤ × ℤ) × V) :=
  m.filter (fun p => decide (p.1 ≠ k))

/-- `m.set(k, v)` on a JS Map modelled as an association list. -/
def setKey {V : Type} (m : List ((ℤ × ℤ) × V)) (k : ℤ × ℤ) (v : V) :
    List ((ℤ × ℤ) × V) :=
  (k, v) :: eraseKey m k

/-! ## Noise engine (module-level functions of WorldManager.js) -/

/-- `fract(x) = x - Math.floor(x)`. -/
def fract (x : ℚ) : ℚ := x - ⌊x⌋

/-- `hash2(x, y, seedNum)`: trigonometric scrambling followed by fractional
extraction.  `sin` abstracts `Math.sin`. -/
def hash2 (sin : ℚ → ℚ) (x y seedNum : ℚ) : ℚ :=
  fract (sin (x * 127.1 + y * 311.7 + seedNum * 101.7) * 43758.5453123)

/-- `lerp(a, b, t)`. -/
def lerp (a b t : ℚ) : ℚ := a + (b - a) * t

/-- `fade(t) = t*t*(3 - 2*t)`. -/
def fade (t : ℚ) : ℚ := t * t * (3 - 2 * t)

/-- `valueNoise2D(x, y, seedNum)`: bilinear interpolation of the four
lattice-corner hashes with the fade curve on both axes. -/
def valueNoise2D (sin : ℚ → ℚ) (x y seedNum : ℚ) : ℚ :=
  let x0 : ℤ := ⌊x⌋
  let y0 : ℤ := ⌊y⌋
  let sx : ℚ := x - x0
  let sy : ℚ := y - y0
  let n00 := hash2 sin x0 y0 seedNum
  let n10 := hash2 sin (x0 + 1) y0 seedNum
  let n01 := hash2 sin x0 (y0 + 1) seedNum
  let n11 := hash2 sin (x0 + 1) (y0 + 1) seedNum
  let ix0 := lerp n00 n10 (fade sx)
  let ix1 := lerp n01 n11 (fade sx)
  lerp ix0 ix1 (fade sy)

/-- State of the `fractalNoise2D` loop after `n` iterations:
`(freq, amp, sum, max)`, started at `(1, 1, 0, 0)`. -/
def fractalIter (sin : ℚ → ℚ) (x y seedNum lacunarity gain : ℚ) :
    ℕ → ℚ × ℚ × ℚ × ℚ
  | 0 => (1, 1, 0, 0)
  | n + 1 =>
    let s := fractalIter sin x y seedNum lacunarity gain n
    let freq := s.1
    let amp := s.2.1
    let sum := s.2.2.1
    let mx := s.2.2.2
    (freq * lacunarity, amp * gain,
     sum + valueNoise2D sin (x * freq) (y * freq) (seedNum + n * 1000) * amp,
     mx + amp)

/-- `fractalNoise2D(x, y, seedNum, octaves, lacunarity, gain)`:
octave sum normalized by total amplitude; `0` when the total amplitude is
`0` (zero octaves). -/
def fractalNoise2D (sin : ℚ → ℚ) (x y seedNum : ℚ) (octaves : ℕ)
    (lacunarity gain : ℚ) : ℚ :=
  let s := fractalIter sin x y seedNum lacunarity gain octaves
  if s.2.2.2 = 0 then 0 else s.2.2.1 / s.2.2.2

/-- `ridgeNoise(x, y, seedNum) = 1 - |fractalNoise2D(x, y, seedNum, 1)*2 - 1|`
(single octave, default lacunarity `2.0` and gain `0.5`). -/
def ridgeNoise (sin : ℚ → ℚ) (x y seedNum : ℚ) : ℚ :=
  1 - |fractalNoise2D sin x y seedNum 1 2 0.5 * 2 - 1|

/-! ## Noise configuration and terrain synthesis -/

/-- The `noiseConfig` record of the manager. -/
structure NoiseConfig where
  scale : ℚ
  octaves : ℕ
  lacunarity : ℚ
  gain : ℚ
  heightWeight : ℚ
  moistureWeight : ℚ
  temperatureWeight : ℚ
  deriving DecidableEq, Repr

/-- The constructor default noise configuration. -/
def defaultNoiseConfig : NoiseConfig :=
  { scale := 0.015, octaves := 5, lacunarity := 2.1, gain := 0.45,
    heightWeight := 1.2, moistureWeight := 0.8, temperatureWeight := 0.6 }

/-- Height-threshold tile classification of `_generateChunkData`
(lines 552–574), translated branch for branch in source order. -/
def classifyHeightTile (height moisture temperature ridge : ℚ) : ℕ :=
  if height < 0.12 then
    if height < 0.06 then 0 else if height < 0.09 then 1 else 2
  else if height < 0.16 then 3
  else if height < 0.65 then
    if moisture > 0.7 then 5 else if moisture < 0.3 then 6 else 4
  else if height < 0.82 then
    if ridge > 0.6 then 7 else if temperature > 0.6 then 6 else 4
  else if height > 0.88 then 8 else 7

/-- Infrastructure overlay of `_generateChunkData` (lines 577–594): roads in
the narrow feature-noise band, buildings/ruins in the wide band, gated on
height/moisture. -/
def overlayInfrastructure (tileType : ℕ)
    (featureNoise height moisture temperature : ℚ) : ℕ :=
  if featureNoise > 0.65 ∧ featureNoise < 0.67 ∧ height > 0.3 ∧
      height < 0.6 ∧ moisture > 0.4 then 9
  else if featureNoise > 0.75 ∧ height > 0.35 ∧ height < 0.5 then
    if temperature > 0.5 then 10 else 11
  else tileType

/-- The per-tile scalar fields computed by `_generateChunkData`:
`(height, moisture, temperature, ridge, featureNoise)` at world tile
coordinates `(worldX, worldY)`. -/
def tileScalars (sin : ℚ → ℚ) (seedNum : ℤ) (cfg : NoiseConfig)
    (worldX worldY : ℤ) : ℚ × ℚ × ℚ × ℚ × ℚ :=
  let scale := cfg.scale
  let octaves := cfg.octaves
  let height :=
    fractalNoise2D sin (worldX * scale) (worldY * scale) (seedNum : ℚ)
      octaves cfg.lacunarity cfg.gain * cfg.heightWeight
  let moisture :=
    fractalNoise2D sin (worldX * scale * 1.3) (worldY * scale * 1.3)
      ((seedNum : ℚ) + 1000) (octaves - 1) 2 0.5 * cfg.moistureWeight
  let temperature :=
    fractalNoise2D sin (worldX * scale * 0.8) (worldY * scale * 0.8)
      ((seedNum : ℚ) + 2000) (octaves - 1) 2 0.5 * cfg.temperatureWeight
  let ridge :=
    ridgeNoise sin (worldX * scale * 0.5) (worldY * scale * 0.5)
      ((seedNum : ℚ) + 3000)
  let featureNoise :=
    fractalNoise2D sin (worldX * scale * 4) (worldY * scale * 4)
      ((seedNum : ℚ) + 4000) 2 2 0.5
  (height, moisture, temperature, ridge, featureNoise)

/-- The tile type `_generateChunkData` stores for one tile. -/
def tileTypeAt (sin : ℚ → ℚ) (seedNum : ℤ) (cfg : NoiseConfig)
    (worldX worldY : ℤ) : ℕ :=
  let s := tileScalars sin seedNum cfg worldX worldY
  let height := s.1
  let moisture := s.2.1
  let temperature := s.2.2.1
  let ridge := s.2.2.2.1
  let featureNoise := s.2.2.2.2
  overlayInfrastructure (classifyHeightTile height moisture temperature ridge)
    featureNoise height moisture temperature

/-- Output of `_generateChunkData`: tile grid plus the three scalar fields,
row-major (`idx = ty * size + tx`). -/
structure ChunkData where
  tiles : List ℕ
  height : List ℚ
  moisture : List ℚ
  temperature : List ℚ
  deriving DecidableEq, Repr

/-- Row-major list of per-tile values for a `chunkSize × chunkSize` grid. -/
def gridMap {α : Type} (size : ℕ) (f : ℕ → ℕ → α) : List α :=
  (List.range size).flatMap (fun ty => (List.range size).map (fun tx => f tx ty))

/-- `_generateChunkData(cx, cy)` as a pure function of the manager fields it
reads: `chunkSize`, `seedNum` and `noiseConfig`. -/
def generateChunkData (sin : ℚ → ℚ) (chunkSize : ℕ) (seedNum : ℤ)
    (cfg : NoiseConfig) (cx cy : ℤ) : ChunkData :=
  let world : ℕ → ℕ → ℤ × ℤ := fun tx ty =>
    (cx * chunkSize + tx, cy * chunkSize + ty)
  { tiles := gridMap chunkSize (fun tx ty =>
      tileTypeAt sin seedNum cfg (world tx ty).1 (world tx ty).2)
    height := gridMap chunkSize (fun tx ty =>
      (tileScalars sin seedNum cfg (world tx ty).1 (world tx ty).2).1)
    moisture := gridMap chunkSize (fun tx ty =>
      (tileScalars sin seedNum cfg (world tx ty).1 (world tx ty).2).2.1)
    temperature := gridMap chunkSize (fun tx ty =>
      (tileScalars sin seedNum cfg (world tx ty).1 (world tx ty).2).2.2.1) }

/-! ## Manager state -/

/-- A collidable obstacle entry of the per-chunk collision registry
(built by `_decorateChunk`; only trees are registered). -/
structure Obstacle where
  x : ℚ
  y : ℚ
  width : ℚ
  height : ℚ
  type : String
  id : String
  collisionRadius : ℚ
  deriving DecidableEq, Repr

/-- A cached chunk entry.  `canvas` records whether the rendered-artifact
handle is present (non-null); the other rendering details are opaque. -/
structure Chunk where
  cx : ℤ
  cy : ℤ
  tiles : List ℕ
  canvas : Bool
  generationId : ℕ
  deriving DecidableEq, Repr

/-- The mutable state of a `WorldManager` instance.  `pool` records whether
a worker pool is available; `doc` whether a DOM document (and hence a
canvas) is available; `generationQueue` maps chunk keys to in-flight
promise handles, identified by the numbers they were issued with. -/
structure WMState where
  chunkSize : ℕ
  tileSize : ℚ
  seed : String
  seedNum : ℤ
  noiseConfig : NoiseConfig
  chunks : List ((ℤ × ℤ) × Chunk)
  collisionMap : List ((ℤ × ℤ) × List Obstacle)
  generationQueue : List ((ℤ × ℤ) × ℕ)
  generationId : ℕ
  pool : Bool
  doc : Bool
  deriving DecidableEq, Repr

/-- `_generateChunkData(cx, cy)` as the method: reads `chunkSize`,
`seedNum` and `noiseConfig` from the instance and nothing else. -/
def WMState.generateChunkDataM (sin : ℚ → ℚ) (st : WMState) (cx cy : ℤ) :
    ChunkData :=
  generateChunkData sin st.chunkSize st.seedNum st.noiseConfig cx cy

/-- `setSeed(seed)` (lines 137–142): rederives the numeric seed via the
external `seedStringToNumber` (abstracted as `hashFn`) and clears the
chunk cache and the generation queue. -/
def WMState.setSeed (hashFn : String → ℤ) (st : WMState) (s : String) :
    WMState :=
  { st with seed := s, seedNum := hashFn s, chunks := [],
            generationQueue := [] }

/-- A partial noise-config patch, as accepted by `setNoiseConfig`. -/
structure NoiseConfigPatch where
  scale : Option ℚ := none
  octaves : Option ℕ := none
  lacunarity : Option ℚ := none
  gain : Option ℚ := none
  heightWeight : Option ℚ := none
  moistureWeight : Option ℚ := none
  temperatureWeight : Option ℚ := none
  deriving DecidableEq, Repr

/-- The spread-merge `{ ...this.noiseConfig, ...cfg }`. -/
def mergeNoiseConfig (base : NoiseConfig) (p : NoiseConfigPatch) :
    NoiseConfig :=
  { scale := p.scale.getD base.scale,
    octaves := p.octaves.getD base.octaves,
    lacunarity := p.lacunarity.getD base.lacunarity,
    gain := p.gain.getD base.gain,
    heightWeight := p.heightWeight.getD base.heightWeight,
    moistureWeight := p.moistureWeight.getD base.moistureWeight,
    temperatureWeight := p.temperatureWeight.getD base.temperatureWeight }

/-- `setNoiseConfig(cfg)` (lines 144–148): merges the patch and clears the
chunk cache and the generation queue. -/
def WMState.setNoiseConfig (st : WMState) (p : NoiseConfigPatch) : WMState :=
  { st with noiseConfig := mergeNoiseConfig st.noiseConfig p,
            chunks := [], generationQueue := [] }

/-! ## Chunk lifecycle -/

/-- The placeholder chunk `_postProcessGeneratedChunk(cx, cy, null)` builds:
a zero tile grid, with a canvas handle present exactly when a document is
available. -/
def placeholderChunk (st : WMState) (cx cy : ℤ) : Chunk :=
  { cx := cx, cy := cy,
    tiles := List.replicate (st.chunkSize * st.chunkSize) 0,
    canvas := st.doc,
    generationId := st.generationId }

/-- The chunk value `getChunk(cx, cy)` returns (lines 790–809): the cached
chunk when it exists and has a canvas, otherwise a fresh placeholder.  The
cache insertion and the fire-and-forget generation trigger of the miss
path do not change the returned value and are modelled by
`generateChunkAsyncStep` below. -/
def WMState.getChunkVal (st : WMState) (cx cy : ℤ) : Chunk :=
  match lookupKey st.chunks (cx, cy) with
  | some c => if c.canvas then c else placeholderChunk st cx cy
  | none => placeholderChunk st cx cy

/-- `getTileAtWorld(x, y)` (lines 827–842): world point to tile, tile to
chunk, then local lookup with the `|| 4` grass fallback (a stored `0` is
falsy and also falls back to `4`). -/
def WMState.getTileAtWorld (st : WMState) (x y : ℚ) : ℕ :=
  let tx : ℤ := ⌊x / st.tileSize⌋
  let ty : ℤ := ⌊y / st.tileSize⌋
  let cx : ℤ := ⌊(tx : ℚ) / (st.chunkSize : ℚ)⌋
  let cy : ℤ := ⌊(ty : ℚ) / (st.chunkSize : ℚ)⌋
  let chunk := st.getChunkVal cx cy
  let localX : ℤ := tx - cx * st.chunkSize
  let localY : ℤ := ty - cy * st.chunkSize
  if localX < 0 ∨ localX ≥ st.chunkSize ∨ localY < 0 ∨ localY ≥ st.chunkSize
  then 4
  else
    let v := chunk.tiles.getD (localY * st.chunkSize + localX).toNat 0
    if v = 0 then 4 else v

/-- The raw stored tile value the `getTileAtWorld` lookup reads before the
`|| 4` fallback is applied; an out-of-range read gives `0`, matching the
JS `undefined` being falsy. -/
def WMState.storedTileValue (st : WMState) (x y : ℚ) : ℕ :=
  let tx : ℤ := ⌊x / st.tileSize⌋
  let ty : ℤ := ⌊y / st.tileSize⌋
  let cx : ℤ := ⌊(tx : ℚ) / (st.chunkSize : ℚ)⌋
  let cy : ℤ := ⌊(ty : ℚ) / (st.chunkSize : ℚ)⌋
  let chunk := st.getChunkVal cx cy
  let localX : ℤ := tx - cx * st.chunkSize
  let localY : ℤ := ty - cy * st.chunkSize
  chunk.tiles.getD (localY * st.chunkSize + localX).toNat 0

/-- The keys `unloadFarChunks` collects into `toRemove` (lines 868–876):
cached chunks whose stored coordinates are farther than `radius` from the
center in either axis. -/
def unloadToRemove (st : WMState) (centerCx centerCy radius : ℤ) :
    List (ℤ × ℤ) :=
  (st.chunks.filter (fun p =>
    decide (|p.2.cx - centerCx| > radius ∨ |p.2.cy - centerCy| > radius))).map
    (fun p => p.1)

/-- `unloadFarChunks(centerCx, centerCy, radius)` (lines 867–887): deletes
every collected key from both the chunk cache and the collision registry. -/
def WMState.unloadFarChunks (st : WMState) (centerCx centerCy radius : ℤ) :
    WMState :=
  let toRemove := unloadToRemove st centerCx centerCy radius
  { st with
    chunks := toRemove.foldl (fun m k => eraseKey m k) st.chunks,
    collisionMap := toRemove.foldl (fun m k => eraseKey m k) st.collisionMap }

/-- Outcome of one call of `_generateChunkAsync` as decided by its
synchronous prefix (lines 742–788). -/
inductive GenOutcome where
  /-- the key was already in `generationQueue`: the existing in-flight
  handle is returned -/
  | awaitExisting (handle : ℕ)
  /-- a complete cached chunk was returned -/
  | existingChunk (c : Chunk)
  /-- a job was dispatched to the pool and a new handle recorded -/
  | dispatched (handle : ℕ)
  /-- no pool: synchronous generation -/
  | syncFallback (c : Chunk)
  deriving DecidableEq, Repr

/-- The dispatch-or-synchronous-fallback tail of `_generateChunkAsync`. -/
def WMState.generateDispatchOrSync (sin : ℚ → ℚ) (st : WMState)
    (cx cy : ℤ) : GenOutcome × WMState :=
  let key := (cx, cy)
  if st.pool then
    let h := st.generationId
    (.dispatched h,
     { st with generationQueue := setKey st.generationQueue key h,
               generationId := st.generationId + 1 })
  else
    let data := st.generateChunkDataM sin cx cy
    let c : Chunk :=
      { cx := cx, cy := cy, tiles := data.tiles, canvas := st.doc,
        generationId := st.generationId }
    (.syncFallback c,
     { st with chunks := setKey st.chunks key c,
               generationId := st.generationId + 1 })

/-- `_generateChunkAsync(cx, cy)` (lines 742–788), modelled up to the point
where control is handed to the worker pool: dedup on the generation queue,
short-circuit on a complete cached chunk, otherwise dispatch (recording a
fresh in-flight handle) or fall back to synchronous generation. -/
def WMState.generateChunkAsyncStep (sin : ℚ → ℚ) (st : WMState)
    (cx cy : ℤ) : GenOutcome × WMState :=
  let key := (cx, cy)
  match lookupKey st.generationQueue key with
  | some h => (.awaitExisting h, st)
  | none =>
    match lookupKey st.chunks key with
    | some c =>
      if c.canvas then (.existingChunk c, st)
      else st.generateDispatchOrSync sin cx cy
    | none => st.generateDispatchOrSync sin cx cy

/-! ## Per-chunk decoration RNG (`_createChunkRNG`, lines 718–727) -/

/-- JavaScript `ToInt32`: reduce into the signed 32-bit range. -/
def toInt32 (z : ℤ) : ℤ := (z + 2 ^ 31).emod (2 ^ 32) - 2 ^ 31

/-- One `state = Math.imul(state, 1597334677) | 0` update. -/
def imulStep (s : ℤ) : ℤ := toInt32 (s * 1597334677)

/-- The RNG state after `n` multiply-and-mask updates from the seed. -/
def rngState (seed : ℤ) : ℕ → ℤ
  | 0 => seed
  | n + 1 => imulStep (rngState seed n)

/-- The seed `_createChunkRNG(cx, cy)` derives:
`this.seedNum + cx * 131 + cy * 197`. -/
def chunkRNGSeed (seedNum cx cy : ℤ) : ℤ := seedNum + cx * 131 + cy * 197

/-- The value of draw number `k` (0-based) of the closure returned by
`_createChunkRNG`: each call performs two `imul` updates and returns
`(state & 0x7fffffff) / 0x7fffffff`. -/
def chunkRNGDraw (seedNum cx cy : ℤ) (k : ℕ) : ℚ :=
  ((rngState (chunkRNGSeed seedNum cx cy) (2 * (k + 1))).emod (2 ^ 31) : ℚ) /
    (2 ^ 31 - 1)

/-- Draw `k` of the decoration RNG of chunk `(cx, cy)` of a manager. -/
def WMState.chunkRNGDrawAt (st : WMState) (cx cy : ℤ) (k : ℕ) : ℚ :=
  chunkRNGDraw st.seedNum cx cy k

/-! ## Collision subsystem -/

/-- A JavaScript division: `none` models the non-finite result (`NaN` or
`±Infinity`) produced when the denominator is `0`. -/
def jsDiv (a b : ℚ) : Option ℚ := if b = 0 then none else some (a / b)

/-- Result record of `checkCollision` / `_checkTerrainCollision`.  The
obstacle descriptor is reduced to the fields the queries fill in:
the obstacle (for the object layer) or the colliding tile's type and
center (for the terrain layer). -/
structure CollisionResult where
  collided : Bool
  obstacle : Option Obstacle
  tileType : Option ℕ
  tileCenter : Option (ℚ × ℚ)
  penetration : Option ℚ
  dirX : Option ℚ
  dirY : Option ℚ
  deriving DecidableEq, Repr

/-- The `{ collided: false }` result. -/
def noCollision : CollisionResult :=
  { collided := false, obstacle := none, tileType := none,
    tileCenter := none, penetration := none, dirX := none, dirY := none }

/-- `obstacle.collisionRadius || obstacle.width * 0.5`: a zero (falsy)
stored radius falls back to half the width. -/
def effRadius (o : Obstacle) : ℚ :=
  if o.collisionRadius = 0 then o.width * 0.5 else o.collisionRadius

/-- The inner obstacle loop of `checkCollision` (lines 921–940): first
qualifying obstacle in scan order wins; `ignoreId` skips one id;
`sqrtFn` abstracts `Math.sqrt`. -/
def scanObstacles (sqrtFn : ℚ → ℚ) (x y radius : ℚ)
    (ignoreId : Option String) : List Obstacle → CollisionResult
  | [] => noCollision
  | o :: rest =>
    if ignoreId = some o.id then scanObstacles sqrtFn x y radius ignoreId rest
    else
      let dx := o.x - x
      let dy := o.y - y
      let distance := sqrtFn (dx * dx + dy * dy)
      let minDistance := radius + effRadius o
      if distance < minDistance then
        { collided := true, obstacle := some o, tileType := none,
          tileCenter := none, penetration := some (minDistance - distance),
          dirX := jsDiv dx distance, dirY := jsDiv dy distance }
      else scanObstacles sqrtFn x y radius ignoreId rest

/-- The 3×3 chunk-offset scan order of `checkCollision`: `offsetX` outer
loop, `offsetY` inner loop, each from −1 to 1. -/
def chunkOffsets : List (ℤ × ℤ) :=
  [(-1, -1), (-1, 0), (-1, 1), (0, -1), (0, 0), (0, 1), (1, -1), (1, 0),
   (1, 1)]

/-- The obstacles `checkCollision` scans, in scan order: the registered
entries of the 3×3 block of chunks around the query point's chunk. -/
def WMState.collisionCandidates (st : WMState) (x y : ℚ) : List Obstacle :=
  let chunkX : ℤ := ⌊x / (st.chunkSize * st.tileSize)⌋
  let chunkY : ℤ := ⌊y / (st.chunkSize * st.tileSize)⌋
  chunkOffsets.flatMap (fun off =>
    (lookupKey st.collisionMap (chunkX + off.1, chunkY + off.2)).getD [])

/-- `checkCollision(x, y, radius, ignoreId)` (lines 906–945): scans only
the per-chunk obstacle registry (`collisionMap`); terrain is not
consulted. -/
def WMState.checkCollision (sqrtFn : ℚ → ℚ) (st : WMState) (x y radius : ℚ)
    (ignoreId : Option String) : CollisionResult :=
  scanObstacles sqrtFn x y radius ignoreId (st.collisionCandidates x y)

/-- The blocking tile types of `_checkTerrainCollision`:
forest, mountain, snow-mountain, building, ruin. -/
def collisionTiles : List ℕ := [5, 7, 8, 10, 11]

/-- Per-tile body of the `_checkTerrainCollision` loop: the blocking check
(radius `0.4 * tileSize`) followed by the water check
(radius `0.3 * tileSize`), `none` when the tile qualifies for neither. -/
def terrainTileHit (sqrtFn : ℚ → ℚ) (tileSize x y radius : ℚ)
    (checkX checkY : ℤ) (tileType : ℕ) : Option CollisionResult :=
  let tileCenterX := checkX * tileSize + tileSize / 2
  let tileCenterY := checkY * tileSize + tileSize / 2
  let dx := tileCenterX - x
  let dy := tileCenterY - y
  let distance := sqrtFn (dx * dx + dy * dy)
  if tileType ∈ collisionTiles ∧ distance < radius + tileSize * 0.4 then
    some { collided := true, obstacle := none, tileType := some tileType,
           tileCenter := some (tileCenterX, tileCenterY),
           penetration := some (radius + tileSize * 0.4 - distance),
           dirX := jsDiv dx distance, dirY := jsDiv dy distance }
  else if (tileType = 0 ∨ tileType = 1) ∧ distance < radius + tileSize * 0.3
  then
    some { collided := true, obstacle := none, tileType := some tileType,
           tileCenter := some (tileCenterX, tileCenterY),
           penetration := some (radius + tileSize * 0.3 - distance),
           dirX := jsDiv dx distance, dirY := jsDiv dy distance }
  else none

/-- Fold of the 3×3 tile scan: first qualifying tile in scan order wins. -/
def terrainScan (sqrtFn : ℚ → ℚ) (st : WMState) (x y radius : ℚ)
    (tileX tileY : ℤ) : List (ℤ × ℤ) → CollisionResult
  | [] => noCollision
  | off :: rest =>
    let checkX := tileX + off.1
    let checkY := tileY + off.2
    let tileType := st.getTileAtWorld (checkX * st.tileSize)
      (checkY * st.tileSize)
    (terrainTileHit sqrtFn st.tileSize x y radius checkX checkY
      tileType).getD (terrainScan sqrtFn st x y radius tileX tileY rest)

/-- `_checkTerrainCollision(x, y, radius)` (lines 947–1027): 3×3 tile
neighborhood around the containing tile, blocking tiles as circles of
radius `0.4 * tileSize`, deep-ocean/ocean tiles as circles of radius
`0.3 * tileSize`. -/
def WMState.checkTerrainCollision (sqrtFn : ℚ → ℚ) (st : WMState)
    (x y radius : ℚ) : CollisionResult :=
  let tileX : ℤ := ⌊x / st.tileSize⌋
  let tileY : ℤ := ⌊y / st.tileSize⌋
  terrainScan sqrtFn st x y radius tileX tileY chunkOffsets

/-- Executable stand-in used to instantiate the abstract `Math.sqrt`
parameter at concrete inputs: exact on squares of nonnegative rationals
(the only points where closed theorems below evaluate it). -/
def ratSqrt (q : ℚ) : ℚ := (Nat.sqrt q.num.toNat : ℚ) / (Nat.sqrt q.den : ℚ)

/-- The tile classification as the spec words it: exact cut-points listed
top to bottom, first match wins. -/
def classifyTileSpecOrder (height moisture temperature ridge : ℚ) : ℕ :=
  if height < 0.06 then 0
  else if height < 0.09 then 1
  else if height < 0.12 then 2
  else if height < 0.16 then 3
  else if height < 0.65 then
    if moisture > 0.7 then 5 else if moisture < 0.3 then 6 else 4
  else if height < 0.82 then
    if ridge > 0.6 then 7 else if temperature > 0.6 then 6 else 4
  else if height > 0.88 then 8 else 7

/-! ## Concrete instances used by witnesses and counterexamples -/

/-- A completed cached chunk holding a single mountain tile. -/
def chunkW : Chunk :=
  { cx := 0, cy := 0, tiles := [7], canvas := true, generationId := 0 }

/-- A completed cached chunk far from the origin. -/
def chunkFar : Chunk :=
  { cx := 5, cy := 5, tiles := [1], canvas := true, generationId := 1 }

/-- A registered tree obstacle at world point `(16, 16)`. -/
def obsW : Obstacle :=
  { x := 16, y := 16, width := 2, height := 3, type := "tree",
    id := "0,0_tree_0_0", collisionRadius := 10 }

/-- A registered tree obstacle at world point `(19, 20)`. -/
def obsC2 : Obstacle :=
  { x := 19, y := 20, width := 2, height := 3, type := "tree",
    id := "0,0_tree_1_1", collisionRadius := 10 }

/-- A manager state with one cached chunk, one registered obstacle and one
in-flight generation. -/
def stFull : WMState :=
  { chunkSize := 1, tileSize := 32, seed := "test-seed", seedNum := 12345,
    noiseConfig := defaultNoiseConfig,
    chunks := [((0, 0), chunkW)],
    collisionMap := [((0, 0), [obsW])],
    generationQueue := [((0, 0), 7)],
    generationId := 8, pool := true, doc := true }

/-- `stFull` after every cache has been cleared (and with no pool), as
after a dispose-and-reconfigure cycle. -/
def stCleared : WMState :=
  { stFull with chunks := [], collisionMap := [], generationQueue := [],
                generationId := 0, pool := false, doc := false }

/-- A manager state whose numeric seed drives the first decoration draw of
chunk `(0, 0)` to the masked value `0x7fffffff`. -/
def stRNG : WMState := { stFull with seedNum := 1191975031 }

/-- A manager state caching a near chunk at `(0, 0)` and a far chunk at
`(5, 5)`, each with a collision-registry entry. -/
def st7 : WMState :=
  { stFull with chunks := [((0, 0), chunkW), ((5, 5), chunkFar)],
                collisionMap := [((0, 0), [obsW]), ((5, 5), [obsW])] }

/-- A manager state registering the obstacle `obsC2` at `(19, 20)` in the
chunk-`(0, 0)` collision entry. -/
def stC2 : WMState := { stFull with collisionMap := [((0, 0), [obsC2])] }

/-- A manager state with a blocking mountain tile cached at chunk `(0, 0)`
but an empty collision registry. -/
def stC4 : WMState := { stFull with collisionMap := [] }

/-- A completed cached chunk whose single stored tile value is `0`
(deep ocean). -/
def chunkZero : Chunk :=
  { cx := 0, cy := 0, tiles := [0], canvas := true, generationId := 0 }

/-- A manager state caching `chunkZero` at chunk `(0, 0)`. -/
def stC10 : WMState := { stFull with chunks := [((0, 0), chunkZero)] }

/-! # Theorems -/

/-- `ratSqrt` at `0`. -/
theorem ratSqrt_zero : ratSqrt 0 = 0 := by
  unfold ratSqrt
  rw [show (0 : ℚ).num = 0 from rfl, show (0 : ℚ).den = 1 from rfl]
  norm_num

/-- `ratSqrt` at `25`. -/
theorem ratSqrt_25 : ratSqrt 25 = 5 := by
  unfold ratSqrt
  rw [show (25 : ℚ).num = 25 from rfl, show (25 : ℚ).den = 1 from rfl,
    show ((25 : ℤ).toNat) = 5 * 5 from rfl, Nat.sqrt_eq]
  norm_num

/-- `ratSqrt` at `36`. -/
theorem ratSqrt_36 : ratSqrt 36 = 6 := by
  unfold ratSqrt
  rw [show (36 : ℚ).num = 36 from rfl, show (36 : ℚ).den = 1 from rfl,
    show ((36 : ℤ).toNat) = 6 * 6 from rfl, Nat.sqrt_eq]
  norm_num

/-! ## C1 -/

/-- C1: `_generateChunkData(cx, cy)` is a pure function of
`(cx, cy, seedNum, noiseConfig, chunkSize)`: two manager states agreeing on
those fields — regardless of chunk cache, collision registry or generation
queue contents, in particular after a cache clear and regeneration —
produce identical tile grids and height/moisture/temperature fields. -/
theorem generateChunkData_deterministic (sin : ℚ → ℚ) (s1 s2 : WMState)
    (hsize : s1.chunkSize = s2.chunkSize) (hseed : s1.seedNum = s2.seedNum)
    (hcfg : s1.noiseConfig = s2.noiseConfig) (cx cy : ℤ) :
    s1.generateChunkDataM sin cx cy = s2.generateChunkDataM sin cx cy := by
  unfold WMState.generateChunkDataM
  rw [hsize, hseed, hcfg]

/-- Witness for C1: a populated manager state and its fully cleared version
synthesize the identical chunk data. -/
theorem generateChunkData_deterministic_witness :
    stFull.generateChunkDataM (fun q => q) 0 0 =
      stCleared.generateChunkDataM (fun q => q) 0 0 :=
  generateChunkData_deterministic (fun q => q) stFull stCleared rfl rfl rfl
    0 0

/-! ## C5 -/

/-- C5 (amended): `setSeed` and `setNoiseConfig` empty the chunk cache and
the in-flight generation table, but leave the per-chunk collision registry
untouched. -/
theorem setSeed_setNoiseConfig_clears (hashFn : String → ℤ) (st : WMState)
    (s : String) (p : NoiseConfigPatch) :
    (st.setSeed hashFn s).chunks = [] ∧
    (st.setSeed hashFn s).generationQueue = [] ∧
    (st.setSeed hashFn s).collisionMap = st.collisionMap ∧
    (st.setNoiseConfig p).chunks = [] ∧
    (st.setNoiseConfig p).generationQueue = [] ∧
    (st.setNoiseConfig p).collisionMap = st.collisionMap :=
  ⟨rfl, rfl, rfl, rfl, rfl, rfl⟩

/-- Counterexample for C5 as stated: after `setSeed`, the cache and queue
are empty, yet the collision-registry entry built under the old seed is
still present and still observable through `checkCollision`. -/
theorem setSeed_stale_collision_ce :
    (stFull.setSeed (fun _ => 999) "other").chunks = [] ∧
    (stFull.setSeed (fun _ => 999) "other").generationQueue = [] ∧
    lookupKey (stFull.setSeed (fun _ => 999) "other").collisionMap (0, 0) =
      some [obsW] ∧
    ((stFull.setSeed (fun _ => 999) "other").checkCollision ratSqrt 16 16 2
      none).collided = true := by
  refine ⟨rfl, rfl, by decide, ?_⟩
  norm_num [WMState.checkCollision, WMState.collisionCandidates,
    WMState.setSeed, stFull, chunkW, obsW, chunkOffsets, lookupKey,
    scanObstacles, effRadius, jsDiv, noCollision, ratSqrt_zero,
    List.flatMap_cons, List.flatMap_nil]
  rw [if_neg (fun h => Option.noConfusion h)]

/-! ## C6 -/

/-- C6: when a generation for key `(cx, cy)` is already recorded in the
generation queue, `_generateChunkAsync(cx, cy)` returns that same in-flight
handle and leaves the state untouched — no second job is dispatched for
the key. -/
theorem generateChunkAsync_dedup (sin : ℚ → ℚ) (st : WMState) (cx cy : ℤ)
    (h : ℕ) (hq : lookupKey st.generationQueue (cx, cy) = some h) :
    st.generateChunkAsyncStep sin cx cy = (.awaitExisting h, st) := by
  simp only [WMState.generateChunkAsyncStep, hq]

/-- Witness for C6: a state with handle `7` in flight for `(0, 0)` gets
that handle back, unchanged state. -/
theorem generateChunkAsync_dedup_witness :
    stFull.generateChunkAsyncStep (fun q => q) 0 0 =
      (.awaitExisting 7, stFull) :=
  generateChunkAsync_dedup (fun q => q) stFull 0 0 7 (by decide)

/-! ## C8 -/

/-- C8: the height classification of `_generateChunkData` agrees with the
claimed ordered-threshold table at every input: water tiers below `0.12`
(deep ocean below `0.06`, ocean below `0.09`, else shallow), beach below
`0.16`, moisture-split forest/dirt/grass below `0.65`, ridge-gated
mountain else temperature-split dirt/grass below `0.82`, and snow above
`0.88` else mountain. -/
theorem classifyHeightTile_matches_spec (h m t r : ℚ) :
    classifyHeightTile h m t r = classifyTileSpecOrder h m t r := by
  unfold classifyHeightTile classifyTileSpecOrder
  split_ifs <;> first | rfl | linarith

/-! ## C9 -/

/-- C9 (amended): every draw of the per-chunk decoration RNG lies in the
closed interval `[0, 1]`; the endpoint `1` is attainable (see the
counterexample), so the half-open bound of the claim fails. -/
theorem chunkRNGDraw_bounds (st : WMState) (cx cy : ℤ) (k : ℕ) :
    0 ≤ st.chunkRNGDrawAt cx cy k ∧ st.chunkRNGDrawAt cx cy k ≤ 1 := by
  unfold WMState.chunkRNGDrawAt chunkRNGDraw
  constructor
  · apply div_nonneg
    · exact_mod_cast
        Int.emod_nonneg (rngState (chunkRNGSeed st.seedNum cx cy) (2 * (k + 1)))
          (by norm_num)
    · norm_num
  · rw [div_le_one (by norm_num)]
    have hlt :
        (rngState (chunkRNGSeed st.seedNum cx cy) (2 * (k + 1))).emod (2 ^ 31)
          < 2 ^ 31 :=
      Int.emod_lt_of_pos _ (by norm_num)
    have hle :
        (rngState (chunkRNGSeed st.seedNum cx cy) (2 * (k + 1))).emod (2 ^ 31)
          ≤ 2 ^ 31 - 1 := by omega
    push_cast
    exact_mod_cast hle

/-- Counterexample for C9 as stated: with seed `1191975031` the first draw
of the chunk-`(0, 0)` RNG equals exactly `1`, so the stream is not
contained in `[0, 1)`. -/
theorem chunkRNGDraw_reaches_one_ce :
    stRNG.chunkRNGDrawAt 0 0 0 = 1 ∧ ¬ stRNG.chunkRNGDrawAt 0 0 0 < 1 := by
  have h1 : stRNG.chunkRNGDrawAt 0 0 0 = 1 := by
    unfold WMState.chunkRNGDrawAt chunkRNGDraw
    rw [show 2 * (0 + 1) = 2 from rfl,
      show chunkRNGSeed stRNG.seedNum 0 0 = 1191975031 from by decide,
      show (rngState 1191975031 2).emod (2 ^ 31) = 2147483647 from by decide]
    norm_num
  exact ⟨h1, by rw [h1]; exact lt_irrefl 1⟩

/-! ## C7 -/

/-- A lookup misses exactly when no entry carries the key. -/
theorem lookupKey_eq_none_iff {V : Type} (m : List ((ℤ × ℤ) × V))
    (k : ℤ × ℤ) : lookupKey m k = none ↔ ∀ p ∈ m, p.1 ≠ k := by
  induction m with
  | nil => simp [lookupKey]
  | cons q rest ih =>
    simp only [lookupKey, List.mem_cons]
    split_ifs with hq
    · constructor
      · intro hcontra; exact hcontra.elim
      · intro hall; exact absurd hq (hall q (Or.inl rfl))
    · rw [ih]
      constructor
      · intro hall p hp
        rcases hp with hp | hp
        · rw [hp]; exact hq
        · exact hall p hp
      · intro hall p hp; exact hall p (Or.inr hp)

/-- Surviving a left fold of key erasures means surviving every erasure:
the entry was present initially and its key is none of the erased ones. -/
theorem mem_foldl_eraseKey {V : Type} (ks : List (ℤ × ℤ)) :
    ∀ (m : List ((ℤ × ℤ) × V)) (p : (ℤ × ℤ) × V),
      p ∈ ks.foldl (fun acc k => eraseKey acc k) m → p ∈ m ∧ p.1 ∉ ks := by
  induction ks with
  | nil => intro m p hp; exact ⟨hp, by simp⟩
  | cons k ks ih =>
    intro m p hp
    have step : (k :: ks).foldl (fun acc k => eraseKey acc k) m =
        ks.foldl (fun acc k => eraseKey acc k) (eraseKey m k) := rfl
    rw [step] at hp
    obtain ⟨hmem, hnot⟩ := ih (eraseKey m k) p hp
    have hm : p ∈ m ∧ p.1 ≠ k := by
      simpa [eraseKey, List.mem_filter] using hmem
    refine ⟨hm.1, ?_⟩
    simp only [List.mem_cons, not_or]
    exact ⟨hm.2, hnot⟩

/-- C7: after `unloadFarChunks(centerCx, centerCy, radius)`, every chunk
still cached lies within Chebyshev distance `radius` of the center, and
every evicted key has no collision-registry entry left. -/
theorem unloadFarChunks_chebyshev (st : WMState)
    (centerCx centerCy radius : ℤ) :
    (∀ p ∈ (st.unloadFarChunks centerCx centerCy radius).chunks,
       max |p.2.cx - centerCx| |p.2.cy - centerCy| ≤ radius) ∧
    (∀ k ∈ unloadToRemove st centerCx centerCy radius,
       lookupKey (st.unloadFarChunks centerCx centerCy radius).collisionMap
         k = none) := by
  constructor
  · intro p hp
    have h := mem_foldl_eraseKey (unloadToRemove st centerCx centerCy radius)
      st.chunks p hp
    by_contra hfar
    have hf : |p.2.cx - centerCx| > radius ∨ |p.2.cy - centerCy| > radius :=
      by
      rcases not_and_or.mp (fun hand => hfar (max_le hand.1 hand.2)) with
        hx | hy
      · exact Or.inl (lt_of_not_le hx)
      · exact Or.inr (lt_of_not_le hy)
    have hmem : p.1 ∈ unloadToRemove st centerCx centerCy radius := by
      unfold unloadToRemove
      rw [List.mem_map]
      refine ⟨p, ?_, rfl⟩
      rw [List.mem_filter]
      exact ⟨h.1, by simpa using hf⟩
    exact h.2 hmem
  · intro k hk
    rw [lookupKey_eq_none_iff]
    intro p hp heq
    have h := mem_foldl_eraseKey (unloadToRemove st centerCx centerCy radius)
      st.collisionMap p hp
    exact h.2 (heq ▸ hk)

/-- Witness for C7: with center `(0, 0)` and radius `1`, the surviving
chunk `(0, 0)` is within Chebyshev distance `1` and the evicted key
`(5, 5)` has no collision entry left. -/
theorem unloadFarChunks_chebyshev_witness :
    max |chunkW.cx - 0| |chunkW.cy - 0| ≤ 1 ∧
    lookupKey (st7.unloadFarChunks 0 0 1).collisionMap (5, 5) = none :=
  ⟨(unloadFarChunks_chebyshev st7 0 0 1).1 ((0, 0), chunkW) (by decide),
   (unloadFarChunks_chebyshev st7 0 0 1).2 (5, 5) (by decide)⟩

/-! ## C10 -/

/-- The `|| 4` fallback makes `0` unreturnable from `getTileAtWorld`. -/
theorem getTileAtWorld_ne_zero (st : WMState) (x y : ℚ) :
    st.getTileAtWorld x y ≠ 0 := by
  simp only [WMState.getTileAtWorld]
  split_ifs with h1 h2
  · exact Nat.succ_ne_zero 3
  · exact Nat.succ_ne_zero 3
  · exact h2

/-- A terrain-layer hit reports exactly the tile type it was probed with. -/
theorem terrainTileHit_tileType (sqrtFn : ℚ → ℚ)
    (tileSize x y radius : ℚ) (checkX checkY : ℤ) (t : ℕ)
    (r : CollisionResult)
    (hr : terrainTileHit sqrtFn tileSize x y radius checkX checkY t =
      some r) : r.tileType = some t := by
  simp only [terrainTileHit] at hr
  split_ifs at hr with h1 h2 <;>
    first
      | (cases Option.some.inj hr; rfl)
      | exact Option.noConfusion hr

/-- A first-hit-or-default fold preserves a `tileType` invariant. -/
theorem getD_result_tileType_ne_zero (o : Option CollisionResult)
    (d : CollisionResult) (ho : ∀ r, o = some r → r.tileType ≠ some 0)
    (hd : d.tileType ≠ some 0) : (o.getD d).tileType ≠ some 0 := by
  cases o with
  | none => simpa using hd
  | some r => simpa using ho r rfl

/-- No step of the terrain scan can report tile type `0`, because every
tile lookup flows through `getTileAtWorld`. -/
theorem terrainScan_tileType_ne_zero (sqrtFn : ℚ → ℚ) (st : WMState)
    (x y radius : ℚ) (tileX tileY : ℤ) (offs : List (ℤ × ℤ)) :
    (terrainScan sqrtFn st x y radius tileX tileY offs).tileType ≠
      some 0 := by
  induction offs with
  | nil => simp [terrainScan, noCollision]
  | cons off rest ih =>
    simp only [terrainScan]
    apply getD_result_tileType_ne_zero
    · intro r hr
      rw [terrainTileHit_tileType sqrtFn st.tileSize x y radius
        (tileX + off.1) (tileY + off.2) _ r hr]
      intro hcontra
      exact getTileAtWorld_ne_zero st _ _ (Option.some.inj hcontra)
    · exact ih

/-- C10: `getTileAtWorld` never returns tile type `0` (deep ocean); when
the stored tile value at the queried position is the falsy `0`, the lookup
falls back to `4` (grass); consequently the terrain-collision scan can
never report tile type `0` through this lookup. -/
theorem getTileAtWorld_never_deep_ocean (st : WMState) (x y : ℚ) :
    st.getTileAtWorld x y ≠ 0 ∧
    (st.storedTileValue x y = 0 → st.getTileAtWorld x y = 4) ∧
    (∀ (sqrtFn : ℚ → ℚ) (radius : ℚ),
      (st.checkTerrainCollision sqrtFn x y radius).tileType ≠ some 0) := by
  refine ⟨getTileAtWorld_ne_zero st x y, ?_, ?_⟩
  · intro h0
    simp only [WMState.storedTileValue] at h0
    simp only [WMState.getTileAtWorld]
    split_ifs with h1 h2 <;> first | rfl | exact absurd h0 h2
  · intro sqrtFn radius
    exact terrainScan_tileType_ne_zero sqrtFn st x y radius _ _ chunkOffsets

/-- Witness for C10: a cached chunk storing `0` at the queried position
makes `getTileAtWorld` return `4`, never `0`, and the terrain scan never
reports deep ocean. -/
theorem getTileAtWorld_never_deep_ocean_witness :
    stC10.getTileAtWorld 5 5 = 4 ∧ stC10.getTileAtWorld 5 5 ≠ 0 ∧
    (stC10.checkTerrainCollision ratSqrt 5 5 2).tileType ≠ some 0 :=
  ⟨(getTileAtWorld_never_deep_ocean stC10 5 5).2.1 (by
      norm_num [WMState.storedTileValue, WMState.getChunkVal, stC10, stFull,
        chunkZero, lookupKey, placeholderChunk]),
   (getTileAtWorld_never_deep_ocean stC10 5 5).1,
   (getTileAtWorld_never_deep_ocean stC10 5 5).2.2 ratSqrt 2⟩

/-- An absent `ignoreId` never matches an obstacle id. -/
theorem ignoreId_none (s : String) : (none = some s) = False :=
  eq_false (fun h => Option.noConfusion h)

/-! ## C2 -/

/-- The scan loop of `checkCollision` fills every result field from the
obstacle it reports. -/
theorem scanObstacles_hit (sqrtFn : ℚ → ℚ) (x y radius : ℚ)
    (ig : Option String) (l : List Obstacle) (o : Obstacle)
    (hobs : (scanObstacles sqrtFn x y radius ig l).obstacle = some o) :
    (scanObstacles sqrtFn x y radius ig l).dirX =
      jsDiv (o.x - x)
        (sqrtFn ((o.x - x) * (o.x - x) + (o.y - y) * (o.y - y))) ∧
    (scanObstacles sqrtFn x y radius ig l).dirY =
      jsDiv (o.y - y)
        (sqrtFn ((o.x - x) * (o.x - x) + (o.y - y) * (o.y - y))) ∧
    (scanObstacles sqrtFn x y radius ig l).collided = true := by
  induction l with
  | nil => exact absurd hobs (by simp [scanObstacles, noCollision])
  | cons a rest ih =>
    simp only [scanObstacles] at hobs ⊢
    split_ifs at hobs ⊢ with h1 h2
    · exact ih hobs
    · obtain rfl : a = o := Option.some.inj hobs
      exact ⟨rfl, rfl, rfl⟩
    · exact ih hobs

/-- C2 (amended): when `checkCollision` reports obstacle `O` at a nonzero
distance `d` (with `sqrtFn` a genuine square root at that point), the
returned direction is the unit vector pointing from the query point toward
`O` — the opposite orientation of the one claimed. -/
theorem checkCollision_direction (sqrtFn : ℚ → ℚ) (st : WMState)
    (x y radius : ℚ) (ig : Option String) (o : Obstacle)
    (hobs : (st.checkCollision sqrtFn x y radius ig).obstacle = some o)
    (d : ℚ)
    (hd : sqrtFn ((o.x - x) * (o.x - x) + (o.y - y) * (o.y - y)) = d)
    (hsq : d * d = (o.x - x) * (o.x - x) + (o.y - y) * (o.y - y))
    (hpos : 0 < d) :
    (st.checkCollision sqrtFn x y radius ig).dirX = some ((o.x - x) / d) ∧
    (st.checkCollision sqrtFn x y radius ig).dirY = some ((o.y - y) / d) ∧
    ((o.x - x) / d) ^ 2 + ((o.y - y) / d) ^ 2 = 1 := by
  have hscan := scanObstacles_hit sqrtFn x y radius ig
    (st.collisionCandidates x y) o hobs
  have hdne : d ≠ 0 := ne_of_gt hpos
  refine ⟨?_, ?_, ?_⟩
  · show (scanObstacles sqrtFn x y radius ig
      (st.collisionCandidates x y)).dirX = some ((o.x - x) / d)
    rw [hscan.1, hd, jsDiv, if_neg hdne]
  · show (scanObstacles sqrtFn x y radius ig
      (st.collisionCandidates x y)).dirY = some ((o.y - y) / d)
    rw [hscan.2.1, hd, jsDiv, if_neg hdne]
  · field_simp
    nlinarith [hsq]

/-- Witness for C2 (amended): a 3-4-5 configuration — obstacle at
`(19, 20)`, query at `(16, 16)`, distance `5` — returns the unit direction
`((19-16)/5, (20-16)/5)`. -/
theorem checkCollision_direction_witness :
    (stC2.checkCollision ratSqrt 16 16 2 none).dirX =
      some ((obsC2.x - 16) / 5) ∧
    (stC2.checkCollision ratSqrt 16 16 2 none).dirY =
      some ((obsC2.y - 16) / 5) ∧
    ((obsC2.x - 16) / 5) ^ 2 + ((obsC2.y - 16) / 5) ^ 2 = 1 :=
  checkCollision_direction ratSqrt stC2 16 16 2 none obsC2
    (by norm_num [WMState.checkCollision, WMState.collisionCandidates, stC2,
      stFull, obsC2, chunkOffsets, lookupKey, scanObstacles, effRadius,
      jsDiv, noCollision, ratSqrt_25, ignoreId_none, List.flatMap_cons,
      List.flatMap_nil])
    5
    (by norm_num [obsC2, ratSqrt_25])
    (by norm_num [obsC2])
    (by norm_num)

/-- Counterexample for C2 as stated: in the same 3-4-5 configuration the
returned direction is `(3/5, 4/5)`, the unit vector from the query point
toward the obstacle; the vector from the obstacle toward the query point
is `(-3/5, -4/5)`, which is not what is returned. -/
theorem checkCollision_direction_ce :
    (stC2.checkCollision ratSqrt 16 16 2 none).collided = true ∧
    (stC2.checkCollision ratSqrt 16 16 2 none).dirX = some (3 / 5) ∧
    (stC2.checkCollision ratSqrt 16 16 2 none).dirY = some (4 / 5) ∧
    (16 - obsC2.x) / 5 = -(3 / 5) ∧
    (16 - obsC2.y) / 5 = -(4 / 5) ∧
    (stC2.checkCollision ratSqrt 16 16 2 none).dirX ≠
      some ((16 - obsC2.x) / 5) := by
  norm_num [WMState.checkCollision, WMState.collisionCandidates, stC2,
    stFull, obsC2, chunkOffsets, lookupKey, scanObstacles, effRadius,
    jsDiv, noCollision, ratSqrt_25, ignoreId_none, List.flatMap_cons,
    List.flatMap_nil]

/-! ## C3 -/

/-- C3 (code bug): when the query point coincides with the reported
obstacle's center (or the colliding tile's center), both collision
queries still report a collision but compute `0/0` for the direction:
the result is the non-finite `NaN` (modelled `none`), not a zero vector
and not a rejection. -/
theorem collision_zero_distance_nan_bug :
    (stC2.checkCollision ratSqrt 19 20 2 none).collided = true ∧
    (stC2.checkCollision ratSqrt 19 20 2 none).dirX = none ∧
    (stC2.checkCollision ratSqrt 19 20 2 none).dirY = none ∧
    (stC2.checkTerrainCollision ratSqrt 16 16 2).collided = true ∧
    (stC2.checkTerrainCollision ratSqrt 16 16 2).dirX = none ∧
    (stC2.checkTerrainCollision ratSqrt 16 16 2).dirY = none := by
  norm_num [WMState.checkCollision, WMState.collisionCandidates,
    WMState.checkTerrainCollision, terrainScan, terrainTileHit,
    WMState.getTileAtWorld, WMState.getChunkVal, placeholderChunk,
    collisionTiles, stC2, stFull, chunkW, obsC2, chunkOffsets, lookupKey,
    scanObstacles, effRadius, jsDiv, noCollision, ratSqrt_zero,
    ignoreId_none, defaultNoiseConfig, Prod.ext_iff, List.flatMap_cons,
    List.flatMap_nil]

/-! ## C4 -/

/-- C4 (amended): the public `checkCollision` consults only the obstacle
registry: with an empty registry it reports no collision regardless of
the cached tiles, and its result never depends on the chunk cache at all;
blocking or water tiles are reported only by the separate
`_checkTerrainCollision`, which `checkCollision` does not invoke. -/
theorem checkCollision_obstacles_only (sqrtFn : ℚ → ℚ) (st : WMState)
    (x y radius : ℚ) (ig : Option String)
    (hmap : st.collisionMap = []) :
    st.checkCollision sqrtFn x y radius ig = noCollision ∧
    ∀ l : List ((ℤ × ℤ) × Chunk),
      WMState.checkCollision sqrtFn { st with chunks := l } x y radius ig =
        st.checkCollision sqrtFn x y radius ig := by
  constructor
  · simp [WMState.checkCollision, WMState.collisionCandidates, hmap,
      lookupKey, chunkOffsets, scanObstacles, List.flatMap_cons,
      List.flatMap_nil]
  · intro l; rfl

/-- Witness for C4 (amended): the empty-registry state with a blocking
tile cached reports no collision, independent of the chunk cache. -/
theorem checkCollision_obstacles_only_witness :
    stC4.checkCollision ratSqrt 10 16 2 none = noCollision ∧
    ∀ l : List ((ℤ × ℤ) × Chunk),
      WMState.checkCollision ratSqrt { stC4 with chunks := l } 10 16 2
        none = stC4.checkCollision ratSqrt 10 16 2 none :=
  checkCollision_obstacles_only ratSqrt stC4 10 16 2 none rfl

/-- Counterexample for C4 as stated: with a blocking mountain tile next to
the query point but an empty obstacle registry, `checkCollision` reports
no collision even though `_checkTerrainCollision` reports the mountain
tile — the public query does not evaluate the terrain layer. -/
theorem checkCollision_no_terrain_ce :
    stC4.checkCollision ratSqrt 10 16 2 none = noCollision ∧
    (stC4.checkTerrainCollision ratSqrt 10 16 2).collided = true ∧
    (stC4.checkTerrainCollision ratSqrt 10 16 2).tileType = some 7 := by
  norm_num [WMState.checkCollision, WMState.collisionCandidates,
    WMState.checkTerrainCollision, terrainScan, terrainTileHit,
    WMState.getTileAtWorld, WMState.getChunkVal, placeholderChunk,
    collisionTiles, stC4, stFull, chunkW, chunkOffsets, lookupKey,
    scanObstacles, effRadius, jsDiv, noCollision, ratSqrt_36,
    ignoreId_none, defaultNoiseConfig, Prod.ext_iff, List.flatMap_cons,
    List.flatMap_nil]

end ProcWorld
